import Mathlib

/-!
Shallow embedding of the scoundrelc game engine
(`scoundrelc/game/card.py` and `scoundrelc/game/game.py`),
with theorems settling the specification claims about it.
-/

set_option maxRecDepth 10000

namespace Scoundrel

/-- Suits, as in `card.py` (`Suit`): clubs and spades are monsters,
diamonds weapons, hearts potions. -/
inductive Suit : Type
| clubs
| spades
| diamonds
| hearts
deriving DecidableEq

/-- Card categories, as in `card.py` (`CardType`). -/
inductive CardType : Type
| monster
| weapon
| potion
deriving DecidableEq

/-- A card: suit and numeric value (2..14), as in `card.py` (`Card`). -/
structure Card : Type where
  suit : Suit
  value : Nat
deriving DecidableEq

/-- `Card.type` property from `card.py`: category derived from the suit. -/
def Card.type (c : Card) : CardType :=
  match c.suit with
  | Suit.clubs => CardType.monster
  | Suit.spades => CardType.monster
  | Suit.diamonds => CardType.weapon
  | Suit.hearts => CardType.potion

/-- Suit display symbol (the `Suit` enum values in `card.py`). -/
def Suit.symbol : Suit → String
  | Suit.clubs => "♣"
  | Suit.spades => "♠"
  | Suit.diamonds => "♦"
  | Suit.hearts => "♥"

/-- `Card.name` property from `card.py`: face-card letters for 11..14,
digits otherwise, followed by the suit symbol. -/
def Card.name (c : Card) : String :=
  let card_name :=
    if c.value ≤ 10 then toString c.value
    else if c.value = 11 then "J"
    else if c.value = 12 then "Q"
    else if c.value = 13 then "K"
    else "A"
  card_name ++ c.suit.symbol

/-- `Deck._build_deck` from `card.py`: clubs and spades 2..14,
diamonds and hearts 2..10, in construction order. -/
def buildDeck : List Card :=
  ((List.range' 2 13).map fun v => Card.mk Suit.clubs v) ++
  ((List.range' 2 13).map fun v => Card.mk Suit.spades v) ++
  ((List.range' 2 9).map fun v => Card.mk Suit.diamonds v) ++
  ((List.range' 2 9).map fun v => Card.mk Suit.hearts v)

/-- An equipped weapon, as in `card.py` (`Weapon`): the weapon card plus
the optional last monster defeated with it. -/
structure Weapon : Type where
  card : Card
  last_monster_defeated : Option Card
deriving DecidableEq

/-- `Weapon.value` property from `card.py`. -/
def Weapon.value (w : Weapon) : Nat := w.card.value

/-- `Weapon.can_defeat` from `card.py`: a fresh weapon defeats anything;
afterwards only monsters of strictly lower value than the last defeated. -/
def Weapon.can_defeat (w : Weapon) (monster : Card) : Bool :=
  match w.last_monster_defeated with
  | none => true
  | some last => monster.value < last.value

/-- The mutable game state of `game.py` (`GameState`), with Python ints
modelled as `Int` (player health may go negative) and lists as `List`. -/
structure GameState : Type where
  player_health : Int
  max_health : Int
  equipped_weapon : Option Weapon
  current_room : List Card
  dungeon : List Card
  discard : List Card
  ran_last_room : Bool
  potion_used_this_room : Bool
  game_over : Bool
  victory : Bool
  cards_played_this_room : Nat
deriving DecidableEq

/-- `GameState._check_victory` from `game.py`: scan the dungeon, then the
current room, for a monster; if none remains anywhere the game is won. -/
def GameState.check_victory (s : GameState) : GameState :=
  if s.dungeon.any (fun c => c.type == CardType.monster) then s
  else if s.current_room.any (fun c => c.type == CardType.monster) then s
  else { s with game_over := true, victory := true }

/-- The card kept across a room transition in `deal_room`: the first card
of the current room when the room is non-empty, nothing otherwise. -/
def roomKept (room : List Card) : List Card :=
  match room with
  | [] => []
  | c :: _ => [c]

/-- `GameState.deal_room` from `game.py`: reset per-room flags, keep the
first card of the old room, then pop cards from the front of the dungeon
until the room holds 4 cards; if the dungeon has strictly fewer cards than
needed, move the entire dungeon into the room and run the victory check. -/
def GameState.deal_room (s : GameState) : GameState :=
  let s1 : GameState :=
    { s with potion_used_this_room := false, cards_played_this_room := 0,
             current_room := roomKept s.current_room }
  let cards_to_deal : Nat := 4 - s1.current_room.length
  if s1.dungeon.length < cards_to_deal then
    GameState.check_victory
      { s1 with current_room := s1.current_room ++ s1.dungeon, dungeon := [] }
  else
    { s1 with current_room := s1.current_room ++ s1.dungeon.take cards_to_deal,
              dungeon := s1.dungeon.drop cards_to_deal }

/-- `GameState.run_from_room` from `game.py`: refuse (no mutation) when a
run was already used or a card was already played this room; otherwise
append the room to the back of the dungeon, clear it, set the flag and
deal a new room. Returns the new state and the success Boolean. -/
def GameState.run_from_room (s : GameState) : GameState × Bool :=
  if s.ran_last_room then (s, false)
  else if s.cards_played_this_room > 0 then (s, false)
  else
    (GameState.deal_room
      { s with dungeon := s.dungeon ++ s.current_room, current_room := [],
               ran_last_room := true },
     true)

/-- `GameState._handle_monster` from `game.py`: weapon usable only when
equipped, requested and `can_defeat` holds; damage is the monster value,
reduced (floored at 0) by the weapon value when the weapon is used, in
which case `last_monster_defeated` becomes this monster. Health drops by
the damage; at 0 or below the game is lost. -/
def GameState.handle_monster (s : GameState) (monster : Card) (use_weapon : Bool) :
    String × GameState :=
  let weapon_value : Int :=
    match s.equipped_weapon with
    | some w => if use_weapon then (w.value : Int) else 0
    | none => 0
  let can_use_weapon : Bool :=
    match s.equipped_weapon with
    | some w => use_weapon && w.can_defeat monster
    | none => false
  let weapon_name : String :=
    match s.equipped_weapon with
    | some w => w.card.name
    | none => ""
  let damage : Int :=
    if can_use_weapon then max 0 ((monster.value : Int) - weapon_value)
    else (monster.value : Int)
  let s1 : GameState :=
    if can_use_weapon then
      { s with equipped_weapon :=
          s.equipped_weapon.map fun w => { w with last_monster_defeated := some monster } }
    else s
  let s2 : GameState := { s1 with player_health := s1.player_health - damage }
  if s2.player_health ≤ 0 then
    let msg :=
      if can_use_weapon then
        "You fought " ++ monster.name ++ " with your " ++ weapon_name ++
          ". You took " ++ toString damage ++ " damage and were defeated!"
      else
        "You fought " ++ monster.name ++ " barehanded. You took " ++
          toString damage ++ " damage and were defeated!"
    (msg, { s2 with game_over := true, victory := false })
  else
    let msg :=
      if can_use_weapon then
        "You fought " ++ monster.name ++ " with your " ++ weapon_name ++
          ". You took " ++ toString damage ++ " damage."
      else
        "You fought " ++ monster.name ++ " barehanded. You took " ++
          toString damage ++ " damage."
    (msg, s2)

/-- `GameState._handle_weapon` from `game.py`: equip the played weapon
card as a fresh weapon, replacing any previous one. -/
def GameState.handle_weapon (s : GameState) (weapon_card : Card) : String × GameState :=
  ("You equipped " ++ weapon_card.name ++ " as your weapon.",
   { s with equipped_weapon := some (Weapon.mk weapon_card none) })

/-- `GameState._handle_potion` from `game.py`: a second potion in the same
room has no effect; otherwise heal up to `max_health` and set the flag. -/
def GameState.handle_potion (s : GameState) (potion : Card) : String × GameState :=
  if s.potion_used_this_room then
    ("You drank " ++ potion.name ++
       ", but it had no effect since you already used a potion this room.", s)
  else
    let new_health : Int := min s.max_health (s.player_health + (potion.value : Int))
    let actual_healing : Int := new_health - s.player_health
    ("You drank " ++ potion.name ++ " and healed " ++ toString actual_healing ++ " health.",
     { s with player_health := new_health, potion_used_this_room := true })

/-- Dispatch on the played card's category, as the `if/elif` chain in
`GameState.play_card`. -/
def GameState.resolve_card (s : GameState) (card : Card) (use_weapon : Bool) :
    String × GameState :=
  match card.type with
  | CardType.monster => s.handle_monster card use_weapon
  | CardType.weapon => s.handle_weapon card
  | CardType.potion => s.handle_potion card

/-- Placeholder card for the never-taken out-of-range branch of `List.getD`
(the index has been checked before the lookup, as in the Python code). -/
def defaultCard : Card := Card.mk Suit.clubs 2

/-- `GameState.play_card` from `game.py`: reject an out-of-range index with
no mutation; otherwise resolve the indexed card, move it from the room to
the discard, bump the per-room play counter, and when at least 3 cards
have been played and exactly one remains, clear `ran_last_room` and deal a
new room. Returns message, success flag and the new state. -/
def GameState.play_card (s : GameState) (card_index : Int) (use_weapon : Bool) :
    String × Bool × GameState :=
  if card_index < 0 ∨ (s.current_room.length : Int) ≤ card_index then
    ("Invalid card index.", false, s)
  else
    let i : Nat := card_index.toNat
    let card : Card := s.current_room.getD i defaultCard
    let r := s.resolve_card card use_weapon
    let s2 : GameState :=
      { r.2 with current_room := r.2.current_room.eraseIdx i,
                 discard := r.2.discard ++ [card],
                 cards_played_this_room := r.2.cards_played_this_room + 1 }
    if 3 ≤ s2.cards_played_this_room ∧ s2.current_room.length = 1 then
      (r.1 ++ " You enter a new room.", true,
       GameState.deal_room { s2 with ran_last_room := false })
    else
      (r.1, true, s2)

/-- `GameState.get_remaining_monster_count` from `game.py`. -/
def GameState.get_remaining_monster_count (s : GameState) : Nat :=
  (s.dungeon.filter (fun c => c.type == CardType.monster)).length +
    (s.current_room.filter (fun c => c.type == CardType.monster)).length

/-- `GameState.__init__` from `game.py`, parametrised by the outcome of the
random shuffle: fresh fields, the shuffled deck as the dungeon, then the
first room is dealt. -/
def initialState (shuffled : List Card) : GameState :=
  GameState.deal_room
    { player_health := 20, max_health := 20, equipped_weapon := none,
      current_room := [], dungeon := shuffled, discard := [],
      ran_last_room := false, potion_used_this_room := false,
      game_over := false, victory := false, cards_played_this_room := 0 }

/-- States reachable from a fresh game (any shuffle of the 44-card deck)
through the public mutating operations `play_card` and `run_from_room`. -/
inductive Reachable : GameState → Prop
  | init (shuffled : List Card) (hperm : List.Perm shuffled buildDeck) :
      Reachable (initialState shuffled)
  | play (s : GameState) (i : Int) (u : Bool) (hs : Reachable s) :
      Reachable (s.play_card i u).2.2
  | run (s : GameState) (hs : Reachable s) :
      Reachable (s.run_from_room).1

/-- Multiset of all cards in play: discard, dungeon and current room together. -/
def cardsM (s : GameState) : Multiset Card :=
  (s.discard : Multiset Card) + (s.dungeon : Multiset Card) + (s.current_room : Multiset Card)

/-- A minimal hand-written state used to exercise the engine at concrete inputs. -/
def baseState : GameState :=
  { player_health := 20, max_health := 20, equipped_weapon := none,
    current_room := [], dungeon := [], discard := [],
    ran_last_room := false, potion_used_this_room := false,
    game_over := false, victory := false, cards_played_this_room := 0 }

/-- Exact-fit deal scenario: empty room, dungeon holding exactly the 4
non-monster cards needed to fill the room. -/
def exactDealState : GameState :=
  { baseState with
    dungeon := [Card.mk Suit.hearts 2, Card.mk Suit.hearts 3,
      Card.mk Suit.hearts 4, Card.mk Suit.hearts 5] }

/-- Short deal scenario: empty room, dungeon of only 2 non-monster cards. -/
def shortDealState : GameState :=
  { baseState with dungeon := [Card.mk Suit.hearts 2, Card.mk Suit.hearts 3] }

/-- A terminal (lost) state that still holds a potion in the room. -/
def terminalPotionState : GameState :=
  { baseState with
    player_health := 10, game_over := true,
    current_room := [Card.mk Suit.hearts 5] }

/-- A state holding an equipped weapon that has already defeated a value-10
monster. -/
def wornWeaponState : GameState :=
  { baseState with
    equipped_weapon :=
      some (Weapon.mk (Card.mk Suit.diamonds 5) (some (Card.mk Suit.spades 10))),
    current_room := [Card.mk Suit.clubs 7] }

/-- A room down to its last two cards with two cards already played, ready
for the room-advance rule on the next play. -/
def advanceState : GameState :=
  { baseState with
    current_room := [Card.mk Suit.hearts 2, Card.mk Suit.hearts 3],
    dungeon := [Card.mk Suit.diamonds 2, Card.mk Suit.diamonds 3,
      Card.mk Suit.diamonds 4, Card.mk Suit.diamonds 5],
    cards_played_this_room := 2 }

/-- A freshly dealt room of 4 cards with 4 more in the dungeon. -/
def runState : GameState :=
  { baseState with
    current_room := [Card.mk Suit.hearts 2, Card.mk Suit.hearts 3,
      Card.mk Suit.hearts 4, Card.mk Suit.hearts 5],
    dungeon := [Card.mk Suit.diamonds 2, Card.mk Suit.diamonds 3,
      Card.mk Suit.diamonds 4, Card.mk Suit.diamonds 5] }

/-- A non-terminal state whose room is down to a single (non-monster) card
with an empty dungeon. -/
def lastCardState : GameState :=
  { baseState with current_room := [Card.mk Suit.hearts 2] }

/-- The state after five plays from a fresh game dealt from the unshuffled
deck: four club monsters fought barehanded, then the value-7 club at 6
health. -/
def deathTrace : GameState :=
  ((((((initialState buildDeck).play_card 0 true).2.2.play_card 0 true).2.2.play_card 0
    true).2.2.play_card 0 true).2.2.play_card 1 true).2.2

example : buildDeck.length = 44 := by decide

example : (initialState buildDeck).current_room.length = 4 := by decide

example : (initialState buildDeck).player_health = 20 := by decide

/-! ### Structural lemmas about the engine operations -/

theorem check_victory_fields (s : GameState) :
    (s.check_victory).current_room = s.current_room ∧
    (s.check_victory).dungeon = s.dungeon ∧
    (s.check_victory).discard = s.discard ∧
    (s.check_victory).player_health = s.player_health ∧
    (s.check_victory).max_health = s.max_health ∧
    (s.check_victory).equipped_weapon = s.equipped_weapon ∧
    (s.check_victory).ran_last_room = s.ran_last_room ∧
    (s.check_victory).potion_used_this_room = s.potion_used_this_room ∧
    (s.check_victory).cards_played_this_room = s.cards_played_this_room := by
  unfold GameState.check_victory
  split
  · exact ⟨rfl, rfl, rfl, rfl, rfl, rfl, rfl, rfl, rfl⟩
  · split
    · exact ⟨rfl, rfl, rfl, rfl, rfl, rfl, rfl, rfl, rfl⟩
    · exact ⟨rfl, rfl, rfl, rfl, rfl, rfl, rfl, rfl, rfl⟩

theorem check_victory_of_no_monster (s : GameState)
    (hd : ∀ c ∈ s.dungeon, c.type ≠ CardType.monster)
    (hr : ∀ c ∈ s.current_room, c.type ≠ CardType.monster) :
    (s.check_victory).game_over = true ∧ (s.check_victory).victory = true := by
  unfold GameState.check_victory
  rw [if_neg, if_neg]
  · exact ⟨rfl, rfl⟩
  · simp only [List.any_eq_true, beq_iff_eq, not_exists, not_and]
    intro c hc
    exact fun h => hr c hc h
  · simp only [List.any_eq_true, beq_iff_eq, not_exists, not_and]
    intro c hc
    exact fun h => hd c hc h

theorem roomKept_length_le (room : List Card) : (roomKept room).length ≤ 1 := by
  cases room <;> simp [roomKept]

theorem roomKept_of_length_le (room : List Card) (h : room.length ≤ 1) :
    roomKept room = room := by
  cases room with
  | nil => rfl
  | cons c t =>
      cases t with
      | nil => rfl
      | cons d t2 => simp at h

theorem deal_room_fields (s : GameState) :
    (s.deal_room).current_room =
      roomKept s.current_room ++ s.dungeon.take (4 - (roomKept s.current_room).length) ∧
    (s.deal_room).dungeon = s.dungeon.drop (4 - (roomKept s.current_room).length) ∧
    (s.deal_room).discard = s.discard ∧
    (s.deal_room).player_health = s.player_health ∧
    (s.deal_room).max_health = s.max_health ∧
    (s.deal_room).equipped_weapon = s.equipped_weapon ∧
    (s.deal_room).ran_last_room = s.ran_last_room ∧
    (s.deal_room).potion_used_this_room = false ∧
    (s.deal_room).cards_played_this_room = 0 := by
  unfold GameState.deal_room
  dsimp only
  split
  · rename_i hshort
    obtain ⟨h1, h2, h3, h4, h5, h6, h7, h8, h9⟩ := check_victory_fields
      { s with potion_used_this_room := false, cards_played_this_room := 0,
               current_room := (roomKept s.current_room) ++ s.dungeon, dungeon := [] }
    refine ⟨?_, ?_, h3, h4, h5, h6, h7, h8, h9⟩
    · rw [h1]
      dsimp only
      rw [List.take_of_length_le (le_of_lt hshort)]
    · rw [h2]
      dsimp only
      rw [List.drop_eq_nil_of_le (le_of_lt hshort)]
  · exact ⟨rfl, rfl, rfl, rfl, rfl, rfl, rfl, rfl, rfl⟩

theorem handle_monster_fields (s : GameState) (m : Card) (u : Bool) :
    ((s.handle_monster m u).2.current_room = s.current_room ∧
     (s.handle_monster m u).2.dungeon = s.dungeon ∧
     (s.handle_monster m u).2.discard = s.discard ∧
     (s.handle_monster m u).2.max_health = s.max_health ∧
     (s.handle_monster m u).2.ran_last_room = s.ran_last_room ∧
     (s.handle_monster m u).2.potion_used_this_room = s.potion_used_this_room ∧
     (s.handle_monster m u).2.cards_played_this_room = s.cards_played_this_room) ∧
    (s.handle_monster m u).2.player_health ≤ s.player_health ∧
    ((s.handle_monster m u).2.victory = s.victory ∨
      (s.handle_monster m u).2.victory = false) := by
  unfold GameState.handle_monster
  dsimp only
  split <;> (repeat' split) <;>
    refine ⟨⟨rfl, rfl, rfl, rfl, rfl, rfl, rfl⟩, ?_, ?_⟩ <;>
    first
      | exact Or.inl rfl
      | exact Or.inr rfl
      | (show s.player_health - _ ≤ s.player_health
         rw [sub_le_self_iff]
         positivity)

theorem handle_monster_alive (s : GameState) (m : Card) (u : Bool) :
    0 < (s.handle_monster m u).2.player_health →
    ((s.handle_monster m u).2.game_over = s.game_over ∧
     (s.handle_monster m u).2.victory = s.victory) := by
  unfold GameState.handle_monster
  rcases hw : s.equipped_weapon with _ | w
  · simp only [hw]
    (repeat' split) <;> intro hgt <;>
      first
        | exact ⟨rfl, rfl⟩
        | (simp_all; omega)
        | simp_all
  · rcases hcd : (u && w.can_defeat m) with _ | _ <;> simp only [hw, hcd] <;>
      (repeat' split) <;> intro hgt <;>
      first
        | exact ⟨rfl, rfl⟩
        | (simp_all; omega)
        | simp_all

theorem handle_weapon_snd (s : GameState) (c : Card) :
    (s.handle_weapon c).2 = { s with equipped_weapon := some (Weapon.mk c none) } := rfl

theorem handle_potion_snd (s : GameState) (p : Card) :
    (s.handle_potion p).2 =
      if s.potion_used_this_room then s
      else { s with player_health := min s.max_health (s.player_health + (p.value : Int)),
                    potion_used_this_room := true } := by
  unfold GameState.handle_potion
  split <;> rfl

theorem handle_monster_equipped (s : GameState) (m : Card) (u : Bool) (w : Weapon)
    (hw : s.equipped_weapon = some w) :
    (s.handle_monster m u).2.equipped_weapon =
      some (if u && w.can_defeat m then { w with last_monster_defeated := some m } else w) := by
  unfold GameState.handle_monster
  simp only [hw]
  rcases hcd : (u && w.can_defeat m) with _ | _ <;>
    (try simp only [hcd]) <;> (repeat' split) <;> simp_all

theorem handle_monster_equipped_none (s : GameState) (m : Card) (u : Bool)
    (hw : s.equipped_weapon = none) :
    (s.handle_monster m u).2.equipped_weapon = none := by
  unfold GameState.handle_monster
  simp only [hw]
  (repeat' split) <;> simp_all

theorem perm_getD_cons_eraseIdx (l : List Card) (i : Nat) (h : i < l.length) :
    List.Perm l (l.getD i defaultCard :: l.eraseIdx i) := by
  rw [List.getD_eq_getElem l defaultCard h]
  exact (List.perm_cons_erase (List.getElem_mem h)).trans
    (List.Perm.cons _ (List.erase_getElem h))

theorem cardsM_check_victory (s : GameState) : cardsM s.check_victory = cardsM s := by
  obtain ⟨h1, h2, h3, _⟩ := check_victory_fields s
  unfold cardsM
  rw [h1, h2, h3]

theorem cardsM_deal_room (s : GameState) (h : s.current_room.length ≤ 1) :
    cardsM s.deal_room = cardsM s := by
  obtain ⟨h1, h2, h3, _⟩ := deal_room_fields s
  unfold cardsM
  rw [h1, h2, h3, roomKept_of_length_le _ h]
  have hsplit :
      ((s.dungeon.take (4 - s.current_room.length) : List Card) : Multiset Card) +
        ((s.dungeon.drop (4 - s.current_room.length) : List Card) : Multiset Card) =
        (s.dungeon : Multiset Card) := by
    rw [Multiset.coe_add, Multiset.coe_eq_coe, List.take_append_drop]
  rw [← hsplit, ← Multiset.coe_add]
  abel

theorem play_card_invalid (s : GameState) (i : Int) (u : Bool)
    (h : i < 0 ∨ (s.current_room.length : Int) ≤ i) :
    s.play_card i u = ("Invalid card index.", false, s) := by
  unfold GameState.play_card
  rw [if_pos h]

theorem play_card_valid_eq (s : GameState) (i : Int) (u : Bool)
    (h : ¬(i < 0 ∨ (s.current_room.length : Int) ≤ i)) :
    s.play_card i u =
      (let card := s.current_room.getD i.toNat defaultCard
       let r := s.resolve_card card u
       let s2 : GameState :=
         { r.2 with current_room := r.2.current_room.eraseIdx i.toNat,
                    discard := r.2.discard ++ [card],
                    cards_played_this_room := r.2.cards_played_this_room + 1 }
       if 3 ≤ s2.cards_played_this_room ∧ s2.current_room.length = 1 then
         (r.1 ++ " You enter a new room.", true,
          GameState.deal_room { s2 with ran_last_room := false })
       else
         (r.1, true, s2)) := by
  unfold GameState.play_card
  rw [if_neg h]

theorem resolve_card_fields (s : GameState) (c : Card) (u : Bool) :
    ((s.resolve_card c u).2.current_room = s.current_room ∧
     (s.resolve_card c u).2.dungeon = s.dungeon ∧
     (s.resolve_card c u).2.discard = s.discard ∧
     (s.resolve_card c u).2.max_health = s.max_health ∧
     (s.resolve_card c u).2.ran_last_room = s.ran_last_room ∧
     (s.resolve_card c u).2.cards_played_this_room = s.cards_played_this_room) ∧
    (s.resolve_card c u).2.player_health ≤ max s.player_health s.max_health ∧
    (0 < (s.resolve_card c u).2.player_health →
      (s.resolve_card c u).2.game_over = s.game_over ∧
      (s.resolve_card c u).2.victory = s.victory) := by
  unfold GameState.resolve_card
  cases hc : c.type
  · obtain ⟨⟨f1, f2, f3, f4, f5, _, f7⟩, hh, _⟩ := handle_monster_fields s c u
    exact ⟨⟨f1, f2, f3, f4, f5, f7⟩, le_trans hh (le_max_left _ _),
      handle_monster_alive s c u⟩
  · rw [handle_weapon_snd]
    exact ⟨⟨rfl, rfl, rfl, rfl, rfl, rfl⟩, le_max_left _ _, fun _ => ⟨rfl, rfl⟩⟩
  · rw [handle_potion_snd]
    split
    · exact ⟨⟨rfl, rfl, rfl, rfl, rfl, rfl⟩, le_max_left _ _, fun _ => ⟨rfl, rfl⟩⟩
    · refine ⟨⟨rfl, rfl, rfl, rfl, rfl, rfl⟩, le_trans (min_le_left _ _) (le_max_right _ _),
        fun _ => ⟨rfl, rfl⟩⟩

theorem play_card_valid_success (s : GameState) (i : Int) (u : Bool)
    (h : ¬(i < 0 ∨ (s.current_room.length : Int) ≤ i)) :
    (s.play_card i u).2.1 = true := by
  rw [play_card_valid_eq s i u h]
  dsimp only
  split <;> rfl

theorem play_card_valid_discard (s : GameState) (i : Int) (u : Bool)
    (h : ¬(i < 0 ∨ (s.current_room.length : Int) ≤ i)) :
    (s.play_card i u).2.2.discard =
      s.discard ++ [s.current_room.getD i.toNat defaultCard] := by
  rw [play_card_valid_eq s i u h]
  dsimp only
  obtain ⟨⟨_, _, f3, _⟩, _, _⟩ :=
    resolve_card_fields s (s.current_room.getD i.toNat defaultCard) u
  split
  · rw [(deal_room_fields _).2.2.1]
    dsimp only
    rw [f3]
  · dsimp only
    rw [f3]

theorem play_card_health (s : GameState) (i : Int) (u : Bool) :
    (s.play_card i u).2.2.player_health ≤ max s.player_health s.max_health ∧
    (s.play_card i u).2.2.max_health = s.max_health := by
  by_cases h : (i < 0 ∨ (s.current_room.length : Int) ≤ i)
  · rw [play_card_invalid s i u h]
    exact ⟨le_max_left _ _, rfl⟩
  · rw [play_card_valid_eq s i u h]
    dsimp only
    obtain ⟨⟨_, _, _, f4, _, _⟩, hh, _⟩ :=
      resolve_card_fields s (s.current_room.getD i.toNat defaultCard) u
    split
    · rw [(deal_room_fields _).2.2.2.1, (deal_room_fields _).2.2.2.2.1]
      exact ⟨hh, f4⟩
    · exact ⟨hh, f4⟩

theorem run_from_room_success (s : GameState) (h1 : s.ran_last_room = false)
    (h2 : s.cards_played_this_room = 0) :
    s.run_from_room =
      (GameState.deal_room
        { s with dungeon := s.dungeon ++ s.current_room, current_room := [],
                 ran_last_room := true }, true) := by
  have h1' : ¬(s.ran_last_room = true) := by simp [h1]
  have h2' : ¬(s.cards_played_this_room > 0) := by omega
  unfold GameState.run_from_room
  rw [if_neg h1', if_neg h2']

theorem run_from_room_fail (s : GameState)
    (h : s.ran_last_room = true ∨ 0 < s.cards_played_this_room) :
    s.run_from_room = (s, false) := by
  unfold GameState.run_from_room
  by_cases h1 : s.ran_last_room = true
  · rw [if_pos h1]
  · rcases h with h | h
    · exact absurd h h1
    · rw [if_neg h1, if_pos (by omega : s.cards_played_this_room > 0)]

theorem run_from_room_cases (s : GameState) :
    s.run_from_room = (s, false) ∨
    (s.ran_last_room = false ∧ s.cards_played_this_room = 0 ∧
      s.run_from_room =
        (GameState.deal_room
          { s with dungeon := s.dungeon ++ s.current_room, current_room := [],
                   ran_last_room := true }, true)) := by
  unfold GameState.run_from_room
  by_cases h1 : s.ran_last_room
  · rw [if_pos h1]
    exact Or.inl rfl
  · rw [if_neg h1]
    by_cases h2 : s.cards_played_this_room > 0
    · rw [if_pos h2]
      exact Or.inl rfl
    · rw [if_neg h2]
      exact Or.inr ⟨by simpa using h1, by omega, rfl⟩

theorem run_from_room_health (s : GameState) :
    (s.run_from_room).1.player_health = s.player_health ∧
    (s.run_from_room).1.max_health = s.max_health := by
  rcases run_from_room_cases s with h | ⟨_, _, h⟩ <;> rw [h]
  · exact ⟨rfl, rfl⟩
  · exact ⟨(deal_room_fields _).2.2.2.1, (deal_room_fields _).2.2.2.2.1⟩

theorem cardsM_initial (l : List Card) : cardsM (initialState l) = (l : Multiset Card) := by
  unfold initialState
  rw [cardsM_deal_room _ (by simp)]
  unfold cardsM
  simp

theorem cardsM_play_card (s : GameState) (i : Int) (u : Bool) :
    cardsM (s.play_card i u).2.2 = cardsM s := by
  by_cases h : (i < 0 ∨ (s.current_room.length : Int) ≤ i)
  · rw [play_card_invalid s i u h]
  · rw [play_card_valid_eq s i u h]
    dsimp only
    have hi : i.toNat < s.current_room.length := by omega
    have hperm := perm_getD_cons_eraseIdx s.current_room i.toNat hi
    obtain ⟨⟨f1, f2, f3, _⟩, _, _⟩ :=
      resolve_card_fields s (s.current_room.getD i.toNat defaultCard) u
    have hroom : (s.current_room : Multiset Card) =
        (s.current_room.getD i.toNat defaultCard ::ₘ
          (s.current_room.eraseIdx i.toNat : Multiset Card)) := by
      rw [Multiset.cons_coe, Multiset.coe_eq_coe]
      exact hperm
    have key : ∀ t : GameState,
        t.discard = s.discard ++ [s.current_room.getD i.toNat defaultCard] →
        t.dungeon = s.dungeon →
        t.current_room = s.current_room.eraseIdx i.toNat →
        cardsM t = cardsM s := by
      intro t h1 h2 h3
      unfold cardsM
      rw [h1, h2, h3, hroom, ← Multiset.coe_add, Multiset.coe_singleton,
        ← Multiset.singleton_add]
      abel
    split
    · rename_i hcond
      rw [cardsM_deal_room]
      · exact key _ (by dsimp only; rw [f3]) (by dsimp only; rw [f2]) (by dsimp only; rw [f1])
      · try dsimp only
        rw [f1]
        have hlen := hcond.2
        try dsimp only at hlen
        rw [f1] at hlen
        omega
    · exact key _ (by dsimp only; rw [f3]) (by dsimp only; rw [f2]) (by dsimp only; rw [f1])

theorem cardsM_run_from_room (s : GameState) :
    cardsM (s.run_from_room).1 = cardsM s := by
  rcases run_from_room_cases s with h | ⟨_, _, h⟩ <;> rw [h]
  rw [cardsM_deal_room _ (by simp)]
  unfold cardsM
  dsimp only
  rw [← Multiset.coe_add]
  simp only [Multiset.coe_nil]
  abel

theorem cardsM_reachable (s : GameState) (h : Reachable s) :
    cardsM s = (buildDeck : Multiset Card) := by
  induction h with
  | init l hp =>
      rw [cardsM_initial]
      exact Multiset.coe_eq_coe.2 hp
  | play s i u hs ih =>
      rw [cardsM_play_card]
      exact ih
  | run s hs ih =>
      rw [cardsM_run_from_room]
      exact ih

/-! ### Claim theorems -/

/-- C1 counterexample: when the dungeon holds exactly the 4 cards needed to
fill an empty room, dealing leaves the dungeon empty with no monster
remaining anywhere, yet no victory check runs: the game is not flagged won. -/
theorem claim_C1_counterexample :
    (exactDealState.deal_room).dungeon = [] ∧
    (exactDealState.deal_room).get_remaining_monster_count = 0 ∧
    (exactDealState.deal_room).game_over = false ∧
    (exactDealState.deal_room).victory = false := by decide

/-- C1 (amended): the victory check runs as part of a deal exactly when
the dungeon holds strictly fewer cards than needed: such a deal leaves
the dungeon empty and, if no Monster-category card remains in the room
(and hence anywhere), sets game_over and victory; any other deal — in
particular one from a dungeon holding exactly the number needed, which
also empties it — leaves game_over and victory untouched. -/
theorem claim_C1_amended (s : GameState) :
    (s.dungeon.length < 4 - (roomKept s.current_room).length →
      (s.deal_room).dungeon = [] ∧
      ((∀ c ∈ (s.deal_room).current_room, c.type ≠ CardType.monster) →
        (s.deal_room).game_over = true ∧ (s.deal_room).victory = true)) ∧
    (¬(s.dungeon.length < 4 - (roomKept s.current_room).length) →
      (s.deal_room).game_over = s.game_over ∧
      (s.deal_room).victory = s.victory) := by
  constructor
  · intro h
    have heq : s.deal_room = GameState.check_victory
        { s with potion_used_this_room := false, cards_played_this_room := 0,
                 current_room := roomKept s.current_room ++ s.dungeon, dungeon := [] } := by
      unfold GameState.deal_room
      dsimp only
      rw [if_pos h]
    rw [heq]
    constructor
    · rw [(check_victory_fields _).2.1]
    · intro hno
      apply check_victory_of_no_monster
      · intro c hc
        simp at hc
      · intro c hc
        rw [(check_victory_fields _).1] at hno
        exact hno c hc
  · intro h
    unfold GameState.deal_room
    dsimp only
    rw [if_neg h]
    exact ⟨rfl, rfl⟩

/-- C1 witness: a deal from a 2-card all-hearts dungeon is short, empties
the dungeon and immediately flags victory. -/
theorem claim_C1_witness :
    (shortDealState.deal_room).dungeon = [] ∧
    ((shortDealState.deal_room).game_over = true ∧
     (shortDealState.deal_room).victory = true) :=
  ⟨((claim_C1_amended shortDealState).1 (by decide)).1,
   ((claim_C1_amended shortDealState).1 (by decide)).2 (by decide)⟩

/-- C2 counterexample: with game_over = true, play_card on a valid index is
not a no-op: it still mutates the state (here it heals from a potion). -/
theorem claim_C2_counterexample :
    terminalPotionState.game_over = true ∧
    (terminalPotionState.play_card 0 true).2.2.player_health ≠
      terminalPotionState.player_health := by decide

/-- C2 (amended): the engine does not gate on game_over: in a terminal
state, play_card with a valid index still succeeds and moves the played
card to the discard, and run_from_room with its precondition satisfied
still runs; the no-op contract must be enforced by the caller. -/
theorem claim_C2_amended (s : GameState) (i : Int) (u : Bool)
    (_hgo : s.game_over = true) (h0 : 0 ≤ i)
    (hlen : i < (s.current_room.length : Int)) :
    (s.play_card i u).2.1 = true ∧
    (s.play_card i u).2.2.discard.length = s.discard.length + 1 ∧
    (s.ran_last_room = false → s.cards_played_this_room = 0 →
      (s.run_from_room).2 = true ∧ (s.run_from_room).1.ran_last_room = true) := by
  have hv : ¬(i < 0 ∨ (s.current_room.length : Int) ≤ i) := by omega
  refine ⟨play_card_valid_success s i u hv, ?_, ?_⟩
  · rw [play_card_valid_discard s i u hv]
    simp
  · intro h1 h2
    rw [run_from_room_success s h1 h2]
    exact ⟨rfl, (deal_room_fields _).2.2.2.2.2.2.1⟩

/-- C2 witness: the amended statement evaluated in a concrete terminal
state holding a potion. -/
theorem claim_C2_witness :
    (terminalPotionState.play_card 0 true).2.1 = true ∧
    (terminalPotionState.play_card 0 true).2.2.discard.length =
      terminalPotionState.discard.length + 1 ∧
    ((terminalPotionState.run_from_room).2 = true ∧
     (terminalPotionState.run_from_room).1.ran_last_room = true) := by
  obtain ⟨a, b, c⟩ :=
    claim_C2_amended terminalPotionState 0 true (by decide) (by decide) (by decide)
  exact ⟨a, b, c (by decide) (by decide)⟩

/-- C6: run_from_room returns false with the state completely unchanged
exactly when ran_last_room is set or a card was already played this room;
otherwise it appends the whole room in order to the back of the dungeon,
clears the room, sets ran_last_room, deals a new room and returns true. -/
theorem claim_C6_run_rule (s : GameState) :
    (s.run_from_room = (s, false) ↔
      (s.ran_last_room = true ∨ 0 < s.cards_played_this_room)) ∧
    (s.ran_last_room = false → s.cards_played_this_room = 0 →
      s.run_from_room =
        (GameState.deal_room
          { s with dungeon := s.dungeon ++ s.current_room, current_room := [],
                   ran_last_room := true }, true)) := by
  constructor
  · constructor
    · intro heq
      by_cases h1 : s.ran_last_room = true
      · exact Or.inl h1
      · by_cases h2 : 0 < s.cards_played_this_room
        · exact Or.inr h2
        · rw [run_from_room_success s (by simpa using h1) (by omega)] at heq
          simpa using congrArg Prod.snd heq
    · exact run_from_room_fail s
  · exact run_from_room_success s

/-- C6 witness: a successful flee from a fresh 4-card room. -/
theorem claim_C6_witness :
    runState.run_from_room =
      (GameState.deal_room
        { runState with dungeon := runState.dungeon ++ runState.current_room,
                        current_room := [], ran_last_room := true }, true) :=
  (claim_C6_run_rule runState).2 (by decide) (by decide)

/-- C8: a potion played while potion_used_this_room is set leaves health
and the flag unchanged (zero effect); otherwise it heals to
min(max_health, health + value) and sets the flag; dealing a room resets
the flag, so at most one potion heals per room. -/
theorem claim_C8_potion_rule (s : GameState) (p : Card) :
    ((s.handle_potion p).2 =
      if s.potion_used_this_room then s
      else { s with player_health := min s.max_health (s.player_health + (p.value : Int)),
                    potion_used_this_room := true }) ∧
    (s.deal_room).potion_used_this_room = false :=
  ⟨handle_potion_snd s p, (deal_room_fields s).2.2.2.2.2.2.2.1⟩

/-- C9: play_card with an index outside the current room returns the fixed
failure message with success = false and the state unchanged, and a
run_from_room that reports failure also leaves the state unchanged. -/
theorem claim_C9_invalid_index (s : GameState) (i : Int) (u : Bool)
    (h : i < 0 ∨ (s.current_room.length : Int) ≤ i) :
    s.play_card i u = ("Invalid card index.", false, s) ∧
    ((s.run_from_room).2 = false → (s.run_from_room).1 = s) := by
  refine ⟨play_card_invalid s i u h, ?_⟩
  intro hf
  rcases run_from_room_cases s with hc | ⟨_, _, hc⟩
  · rw [hc]
  · rw [hc] at hf
    exact Bool.noConfusion hf

/-- C9 witness: an out-of-range index on a 4-card room is rejected without
mutation. -/
theorem claim_C9_witness :
    runState.play_card 7 true = ("Invalid card index.", false, runState) :=
  (claim_C9_invalid_index runState 7 true (by decide)).1

/-- C3 counterexample: a state reachable from a fresh game (identity
shuffle; five barehanded monster fights) whose player_health is strictly
negative, refuting the lower bound 0 ≤ player_health. -/
theorem claim_C3_counterexample :
    Reachable deathTrace ∧ deathTrace.player_health < 0 := by
  constructor
  · exact Reachable.play _ 1 true (Reachable.play _ 0 true (Reachable.play _ 0 true
      (Reachable.play _ 0 true (Reachable.play _ 0 true
        (Reachable.init buildDeck (List.Perm.refl _))))))
  · decide

/-- C3 (amended): in every reachable state player_health never exceeds
max_health, which is fixed at 20; the lower bound does not hold because
monster damage is not clamped at zero health. -/
theorem claim_C3_amended (s : GameState) (h : Reachable s) :
    s.player_health ≤ s.max_health ∧ s.max_health = 20 := by
  induction h with
  | init l hp =>
      unfold initialState
      rw [(deal_room_fields _).2.2.2.1, (deal_room_fields _).2.2.2.2.1]
      exact ⟨le_refl _, rfl⟩
  | play s i u hs ih =>
      obtain ⟨h1, h2⟩ := play_card_health s i u
      refine ⟨?_, by rw [h2, ih.2]⟩
      rw [h2]
      exact le_trans h1 (max_le ih.1 (le_refl _))
  | run s hs ih =>
      obtain ⟨h1, h2⟩ := run_from_room_health s
      exact ⟨by rw [h1, h2]; exact ih.1, by rw [h2]; exact ih.2⟩

/-- C3 witness: the bound evaluated at a freshly dealt game. -/
theorem claim_C3_witness :
    (initialState buildDeck).player_health ≤ (initialState buildDeck).max_health ∧
    (initialState buildDeck).max_health = 20 :=
  claim_C3_amended _ (Reachable.init buildDeck (List.Perm.refl _))

/-- C4: can_defeat holds iff the weapon is fresh or the monster's value is
strictly below the last defeated monster's; handle_monster updates the
equipped weapon's last_monster_defeated to the fought monster exactly when
the weapon is requested and can_defeat holds, and otherwise leaves it
unchanged, so once set it only ever moves to a strictly lower value. -/
theorem claim_C4_weapon_monotone (s : GameState) (w : Weapon) (m : Card) (u : Bool)
    (hw : s.equipped_weapon = some w) :
    (w.can_defeat m = true ↔
      (w.last_monster_defeated = none ∨
        ∃ l, w.last_monster_defeated = some l ∧ m.value < l.value)) ∧
    ((s.handle_monster m u).2.equipped_weapon =
      some (if u && w.can_defeat m then { w with last_monster_defeated := some m }
            else w)) ∧
    (∀ l, w.last_monster_defeated = some l →
      ∀ w2, (s.handle_monster m u).2.equipped_weapon = some w2 →
        w2.last_monster_defeated = some l ∨
        ∃ m2, w2.last_monster_defeated = some m2 ∧ m2.value < l.value) := by
  have hiff : w.can_defeat m = true ↔
      (w.last_monster_defeated = none ∨
        ∃ l, w.last_monster_defeated = some l ∧ m.value < l.value) := by
    unfold Weapon.can_defeat
    rcases hl : w.last_monster_defeated with _ | l
    · simp
    · simp only [decide_eq_true_eq]
      constructor
      · intro hlt
        exact Or.inr ⟨l, rfl, hlt⟩
      · intro hor
        rcases hor with hnone | ⟨l2, hl2, hlt⟩
        · exact absurd hnone (by simp)
        · rwa [(Option.some.inj hl2)]
  refine ⟨hiff, handle_monster_equipped s m u w hw, ?_⟩
  intro l hl w2 hw2
  rw [handle_monster_equipped s m u w hw] at hw2
  have hw2' := Option.some.inj hw2
  rcases hb : (u && w.can_defeat m) with _ | _
  · rw [hb] at hw2'
    simp only [Bool.false_eq_true, if_false] at hw2'
    rw [← hw2']
    exact Or.inl hl
  · rw [hb] at hw2'
    simp only [if_true] at hw2'
    have hcd : w.can_defeat m = true := by
      simp only [Bool.and_eq_true] at hb
      exact hb.2
    rcases hiff.mp hcd with hnone | ⟨l2, hl2, hlt⟩
    · rw [hl] at hnone
      exact absurd hnone (by simp)
    · rw [hl] at hl2
      right
      refine ⟨m, ?_, ?_⟩
      · rw [← hw2']
      · rw [Option.some.inj hl2]
        exact hlt

/-- C4 witness: a weapon that last defeated a value-10 monster, used
against a value-7 monster, records the value-7 monster. -/
theorem claim_C4_witness :
    (wornWeaponState.handle_monster (Card.mk Suit.clubs 7) true).2.equipped_weapon =
      some (Weapon.mk (Card.mk Suit.diamonds 5) (some (Card.mk Suit.clubs 7))) :=
  ((claim_C4_weapon_monotone wornWeaponState
    (Weapon.mk (Card.mk Suit.diamonds 5) (some (Card.mk Suit.spades 10)))
    (Card.mk Suit.clubs 7) true rfl).2.1).trans (by decide)

/-- C5: in every reachable state, discard ++ dungeon ++ current_room is a
permutation of the 44-card deck built by buildDeck (13 clubs and 13 spades
of values 2 to 14, 9 diamonds and 9 hearts of values 2 to 10, no
duplicates), so the three lengths always sum to 44. -/
theorem claim_C5_conservation (s : GameState) (h : Reachable s) :
    List.Perm (s.discard ++ s.dungeon ++ s.current_room) buildDeck ∧
    s.discard.length + s.dungeon.length + s.current_room.length = 44 ∧
    buildDeck.length = 44 ∧ buildDeck.Nodup := by
  have hM := cardsM_reachable s h
  have hperm : List.Perm (s.discard ++ s.dungeon ++ s.current_room) buildDeck := by
    rw [← Multiset.coe_eq_coe, ← Multiset.coe_add, ← Multiset.coe_add]
    exact hM
  refine ⟨hperm, ?_, by decide, by decide⟩
  have hlen := hperm.length_eq
  simp only [List.length_append] at hlen
  have h44 : buildDeck.length = 44 := by decide
  omega

/-- C5 witness: conservation evaluated at a freshly dealt game. -/
theorem claim_C5_witness :
    List.Perm ((initialState buildDeck).discard ++ (initialState buildDeck).dungeon ++
      (initialState buildDeck).current_room) buildDeck ∧
    (initialState buildDeck).discard.length + (initialState buildDeck).dungeon.length +
      (initialState buildDeck).current_room.length = 44 ∧
    buildDeck.length = 44 ∧ buildDeck.Nodup :=
  claim_C5_conservation _ (Reachable.init buildDeck (List.Perm.refl _))

/-- C7: when a successful play leaves exactly 1 card in the room after at
least 3 plays, ran_last_room is cleared and a new room is dealt whose
first card is the remaining one, followed by 3 cards from the front of
the dungeon, with the per-room counters reset. -/
theorem claim_C7_room_advance (s : GameState) (i : Int) (u : Bool)
    (h0 : 0 ≤ i) (hlen : i < (s.current_room.length : Int))
    (hplayed : 3 ≤ s.cards_played_this_room + 1)
    (hrem : (s.current_room.eraseIdx i.toNat).length = 1) :
    (s.play_card i u).2.2.ran_last_room = false ∧
    (s.play_card i u).2.2.current_room =
      s.current_room.eraseIdx i.toNat ++ s.dungeon.take 3 ∧
    (s.play_card i u).2.2.dungeon = s.dungeon.drop 3 ∧
    (s.play_card i u).2.2.cards_played_this_room = 0 ∧
    (s.play_card i u).2.2.potion_used_this_room = false := by
  have hv : ¬(i < 0 ∨ (s.current_room.length : Int) ≤ i) := by omega
  rw [play_card_valid_eq s i u hv]
  dsimp only
  obtain ⟨⟨f1, f2, _, _, _, f6⟩, _, _⟩ :=
    resolve_card_fields s (s.current_room.getD i.toNat defaultCard) u
  rw [if_pos ?cond]
  case cond =>
    refine ⟨?_, ?_⟩
    · dsimp only
      rw [f6]
      exact hplayed
    · dsimp only
      rw [f1]
      exact hrem
  have hkept : roomKept
      ((s.resolve_card (s.current_room.getD i.toNat defaultCard) u).2.current_room.eraseIdx
        i.toNat) = s.current_room.eraseIdx i.toNat := by
    rw [f1]
    exact roomKept_of_length_le _ (by omega)
  refine ⟨?_, ?_, ?_, ?_, ?_⟩
  · rw [(deal_room_fields _).2.2.2.2.2.2.1]
  · rw [(deal_room_fields _).1]
    dsimp only
    rw [hkept, hrem, f2]
  · rw [(deal_room_fields _).2.1]
    dsimp only
    rw [hkept, hrem, f2]
  · exact (deal_room_fields _).2.2.2.2.2.2.2.2
  · exact (deal_room_fields _).2.2.2.2.2.2.2.1

/-- C7 witness: playing the first of the last two cards with two cards
already played advances into a new room led by the surviving card. -/
theorem claim_C7_witness :
    (advanceState.play_card 0 true).2.2.ran_last_room = false ∧
    (advanceState.play_card 0 true).2.2.current_room =
      advanceState.current_room.eraseIdx (Int.toNat 0) ++ advanceState.dungeon.take 3 ∧
    (advanceState.play_card 0 true).2.2.dungeon = advanceState.dungeon.drop 3 ∧
    (advanceState.play_card 0 true).2.2.cards_played_this_room = 0 ∧
    (advanceState.play_card 0 true).2.2.potion_used_this_room = false :=
  claim_C7_room_advance advanceState 0 true (by decide) (by decide) (by decide) (by decide)

/-- C10: in a non-terminal state whose room holds exactly one card, a
successful play of that card empties the room, deals no new room (the
dungeon is untouched and the play counter is not reset) and runs no
victory check: unless the play itself kills the player, the game stays
non-terminal even when no monster remains anywhere. -/
theorem claim_C10_last_card (s : GameState) (c : Card) (u : Bool)
    (hroom : s.current_room = [c]) (hgo : s.game_over = false) :
    (s.play_card 0 u).2.1 = true ∧
    (s.play_card 0 u).2.2.current_room = [] ∧
    (s.play_card 0 u).2.2.dungeon = s.dungeon ∧
    (s.play_card 0 u).2.2.cards_played_this_room = s.cards_played_this_room + 1 ∧
    (0 < (s.play_card 0 u).2.2.player_health →
      (s.play_card 0 u).2.2.game_over = false ∧
      (s.play_card 0 u).2.2.victory = s.victory) := by
  have hv : ¬((0:Int) < 0 ∨ (s.current_room.length : Int) ≤ 0) := by
    rw [hroom]
    simp
  refine ⟨play_card_valid_success s 0 u hv, ?_⟩
  rw [play_card_valid_eq s 0 u hv]
  dsimp only
  obtain ⟨⟨f1, f2, _, _, _, f6⟩, _, halive⟩ :=
    resolve_card_fields s (s.current_room.getD (Int.toNat 0) defaultCard) u
  rw [if_neg ?cond]
  case cond =>
    intro hc
    have hc2 := hc.2
    try dsimp only at hc2
    rw [f1, hroom] at hc2
    simp [List.eraseIdx] at hc2
  refine ⟨?_, ?_, ?_, ?_⟩
  · dsimp only
    rw [f1, hroom]
    rfl
  · dsimp only
    rw [f2]
  · dsimp only
    rw [f6]
  · intro hhp
    obtain ⟨hg, hvv⟩ := halive hhp
    exact ⟨hg.trans hgo, hvv⟩

/-- C10 witness: playing the final (potion) card of a room with an empty
dungeon leaves the game running and unwon. -/
theorem claim_C10_witness :
    (lastCardState.play_card 0 true).2.1 = true ∧
    (lastCardState.play_card 0 true).2.2.current_room = [] ∧
    (lastCardState.play_card 0 true).2.2.dungeon = lastCardState.dungeon ∧
    (lastCardState.play_card 0 true).2.2.cards_played_this_room =
      lastCardState.cards_played_this_room + 1 ∧
    ((lastCardState.play_card 0 true).2.2.game_over = false ∧
     (lastCardState.play_card 0 true).2.2.victory = lastCardState.victory) := by
  obtain ⟨a, b, c, d, e⟩ :=
    claim_C10_last_card lastCardState (Card.mk Suit.hearts 2) true rfl rfl
  exact ⟨a, b, c, d, e (by decide)⟩

end Scoundrel
